import Mathlib

/-!
The class DiagLevelFilter of LogManagerImpl.hpp.

A shallow embedding of the class `DiagLevelFilter` (lib/api/LogManagerImpl.hpp,
lines 34-102) and the properties of its five member functions.

* `uint8_t` is `Fin 256`: the class does no arithmetic on levels, only
  comparisons, so the type is the set of values 0..255 with the order of
  the naturals.
* `std::set<uint8_t>` is `Finset uint8_t`: `empty()` is equality with `∅`,
  `find(x) != end()` is membership, assignment is replacement of the value.
* The three constants `DIAG_LEVEL_DEFAULT`, `DIAG_LEVEL_DEFAULT_MIN` and
  `DIAG_LEVEL_DEFAULT_MAX` are defined in another header of the SDK.
  They initialise `uint8_t` members and are compared with them, so they are
  taken as a parameter `DiagLevelConstants` holding three `uint8_t` values.

The file also embeds the seven integer overloads of `LogManagerImpl::SetContext`
(lines 154-166), which convert their argument to `int64_t` and call the
`int64_t` overload. Fixed-width integers are their mathematical values, with
the range in the type; the conversion is `to_int64_t`, written with an
explicit remainder modulo 2^64.
-/

/-- The C++ type `uint8_t`: the integers 0..255. -/
abbrev uint8_t := Fin 256

/-- The three preprocessor constants used by `DiagLevelFilter`; their
definitions are not in LogManagerImpl.hpp, so every definition that reads
them takes them as a parameter. -/
structure DiagLevelConstants where
  DIAG_LEVEL_DEFAULT : uint8_t
  DIAG_LEVEL_DEFAULT_MIN : uint8_t
  DIAG_LEVEL_DEFAULT_MAX : uint8_t
deriving DecidableEq

/-- The private members of `class DiagLevelFilter` (lines 97-101), in the
order of their declaration. -/
structure DiagLevelFilter where
  m_levelMin : uint8_t
  m_levelMax : uint8_t
  m_level : uint8_t
  m_levelSet : Finset uint8_t
deriving DecidableEq

/-- The constructor `DiagLevelFilter()` (lines 36-42): the three scalar
members take the three constants, the set is empty. -/
def DiagLevelFilter.ctor (c : DiagLevelConstants) : DiagLevelFilter :=
  { m_levelMin := c.DIAG_LEVEL_DEFAULT_MIN
    m_levelMax := c.DIAG_LEVEL_DEFAULT_MAX
    m_level := c.DIAG_LEVEL_DEFAULT
    m_levelSet := ∅ }

/-- The member `GetDefaultLevel` (lines 47-50). -/
def DiagLevelFilter.GetDefaultLevel (f : DiagLevelFilter) : uint8_t :=
  f.m_level

/-- The member `IsLevelEnabled` (lines 56-63): a non-empty set decides by
membership, otherwise the inclusive range decides. -/
def DiagLevelFilter.IsLevelEnabled (f : DiagLevelFilter) (level : uint8_t) : Bool :=
  if !decide (f.m_levelSet = ∅) then
    decide (level ∈ f.m_levelSet)
  else
    decide (f.m_levelMin ≤ f.m_levelMax) && decide (f.m_levelMin ≤ level)
      && decide (level ≤ f.m_levelMax)

/-- The member `IsLevelFilterEnabled` (lines 68-71). -/
def DiagLevelFilter.IsLevelFilterEnabled (c : DiagLevelConstants) (f : DiagLevelFilter) : Bool :=
  !decide (f.m_levelSet = ∅) || decide (f.m_levelMin ≠ c.DIAG_LEVEL_DEFAULT_MIN)
    || decide (f.m_levelMax ≠ c.DIAG_LEVEL_DEFAULT_MAX)
    || decide (f.m_level ≠ c.DIAG_LEVEL_DEFAULT)

/-- The overload `SetFilter(uint8_t, uint8_t, uint8_t)` (lines 79-84): three
assignments, `m_levelSet` is not written. -/
def DiagLevelFilter.SetFilter_range (f : DiagLevelFilter)
    (defaultLevel levelMin levelMax : uint8_t) : DiagLevelFilter :=
  { f with m_level := defaultLevel, m_levelMin := levelMin, m_levelMax := levelMax }

/-- The overload `SetFilter(uint8_t, const std::set<uint8_t>&)` (lines 91-95):
two assignments, `m_levelMin` and `m_levelMax` are not written. -/
def DiagLevelFilter.SetFilter_set (f : DiagLevelFilter)
    (defaultLevel : uint8_t) (allowedLevels : Finset uint8_t) : DiagLevelFilter :=
  { f with m_level := defaultLevel, m_levelSet := allowedLevels }

/-- One call of `SetFilter`, of either overload, with its arguments. -/
inductive SetFilterCall where
  | range (defaultLevel levelMin levelMax : uint8_t)
  | set (defaultLevel : uint8_t) (allowedLevels : Finset uint8_t)
deriving DecidableEq

/-- The `defaultLevel` argument of a call. -/
def SetFilterCall.defaultLevel : SetFilterCall → uint8_t
  | .range d _ _ => d
  | .set d _ => d

/-- The state after one call of `SetFilter`. -/
def DiagLevelFilter.call (f : DiagLevelFilter) : SetFilterCall → DiagLevelFilter
  | .range d mn mx => f.SetFilter_range d mn mx
  | .set d s => f.SetFilter_set d s

/-- The state after a sequence of `SetFilter` calls, made in list order. -/
def DiagLevelFilter.calls (f : DiagLevelFilter) (cs : List SetFilterCall) : DiagLevelFilter :=
  cs.foldl DiagLevelFilter.call f

/-- The state after a sequence of calls of the range overload alone, each
given by its three arguments `(defaultLevel, levelMin, levelMax)`. -/
def DiagLevelFilter.rangeCalls (f : DiagLevelFilter)
    (rs : List (uint8_t × uint8_t × uint8_t)) : DiagLevelFilter :=
  rs.foldl (fun g r => g.SetFilter_range r.1 r.2.1 r.2.2) f

/-- Modelled from the spec: the values of `DIAG_LEVEL_DEFAULT_MIN` and
`DIAG_LEVEL_DEFAULT_MAX`, which LogManagerImpl.hpp uses and does not define. The
spec says of the filter state that "Defaults form an accept all identity";
over levels 0..255 the only bounds with that property are 0 and 255 (see
`DiagLevelFilter.ctor_acceptAll_iff`). The spec does not fix the value of
`DIAG_LEVEL_DEFAULT`, so it stays a parameter. -/
def acceptAllConstants (defaultLevel : uint8_t) : DiagLevelConstants :=
  { DIAG_LEVEL_DEFAULT := defaultLevel
    DIAG_LEVEL_DEFAULT_MIN := 0
    DIAG_LEVEL_DEFAULT_MAX := 255 }

/-- A state in set mode: bounds 0 and 255, default level 0, set `{5}`. -/
def stateWithSet : DiagLevelFilter :=
  { m_levelMin := 0, m_levelMax := 255, m_level := 0, m_levelSet := {5} }

/-- A state in range mode: bounds 10 and 20, default level 0, empty set. -/
def stateWithRange : DiagLevelFilter :=
  { m_levelMin := 10, m_levelMax := 20, m_level := 0, m_levelSet := ∅ }

/-- The C++ type `int8_t`: the integers -128..127. -/
abbrev int8_t := { v : Int // -128 ≤ v ∧ v ≤ 127 }

/-- The C++ type `int16_t`: the integers -32768..32767. -/
abbrev int16_t := { v : Int // -32768 ≤ v ∧ v ≤ 32767 }

/-- The C++ type `int32_t`: the integers -2^31..2^31-1. -/
abbrev int32_t := { v : Int // -2147483648 ≤ v ∧ v ≤ 2147483647 }

/-- The C++ type `uint16_t`: the integers 0..65535. -/
abbrev uint16_t := Fin 65536

/-- The C++ type `uint32_t`: the integers 0..2^32-1. -/
abbrev uint32_t := Fin 4294967296

/-- The C++ type `uint64_t`: the integers 0..2^64-1. -/
abbrev uint64_t := Fin 18446744073709551616

/-- The conversion `(int64_t)value` of LogManagerImpl.hpp lines 154-166, on
the mathematical value of its operand: the integer of -2^63..2^63-1 congruent
to it modulo 2^64. A value within that range is kept; for one outside it this
is the two's complement wrap, which C++20 prescribes and earlier standards
leave to the implementation. -/
def to_int64_t (v : Int) : Int :=
  (v + 2 ^ 63) % 2 ^ 64 - 2 ^ 63

/-- The overload `SetContext(name, int8_t value, piiKind)` (line 154). The
`int64_t` overload it calls is declared at line 150 and defined in another
file, so it is the parameter `SetContext_int64_t`; `Result` stands for what
that call does and returns, `PiiKind` for the enumeration of that name. -/
def LogManagerImpl.SetContext_int8_t {PiiKind Result : Type}
    (SetContext_int64_t : String → Int → PiiKind → Result)
    (name : String) (value : int8_t) (piiKind : PiiKind) : Result :=
  SetContext_int64_t name (to_int64_t value.val) piiKind

/-- The overload `SetContext(name, int16_t value, piiKind)` (line 156). -/
def LogManagerImpl.SetContext_int16_t {PiiKind Result : Type}
    (SetContext_int64_t : String → Int → PiiKind → Result)
    (name : String) (value : int16_t) (piiKind : PiiKind) : Result :=
  SetContext_int64_t name (to_int64_t value.val) piiKind

/-- The overload `SetContext(name, int32_t value, piiKind)` (line 158). -/
def LogManagerImpl.SetContext_int32_t {PiiKind Result : Type}
    (SetContext_int64_t : String → Int → PiiKind → Result)
    (name : String) (value : int32_t) (piiKind : PiiKind) : Result :=
  SetContext_int64_t name (to_int64_t value.val) piiKind

/-- The overload `SetContext(name, uint8_t value, piiKind)` (line 160). -/
def LogManagerImpl.SetContext_uint8_t {PiiKind Result : Type}
    (SetContext_int64_t : String → Int → PiiKind → Result)
    (name : String) (value : uint8_t) (piiKind : PiiKind) : Result :=
  SetContext_int64_t name (to_int64_t (value.val : Int)) piiKind

/-- The overload `SetContext(name, uint16_t value, piiKind)` (line 162). -/
def LogManagerImpl.SetContext_uint16_t {PiiKind Result : Type}
    (SetContext_int64_t : String → Int → PiiKind → Result)
    (name : String) (value : uint16_t) (piiKind : PiiKind) : Result :=
  SetContext_int64_t name (to_int64_t (value.val : Int)) piiKind

/-- The overload `SetContext(name, uint32_t value, piiKind)` (line 164). -/
def LogManagerImpl.SetContext_uint32_t {PiiKind Result : Type}
    (SetContext_int64_t : String → Int → PiiKind → Result)
    (name : String) (value : uint32_t) (piiKind : PiiKind) : Result :=
  SetContext_int64_t name (to_int64_t (value.val : Int)) piiKind

/-- The overload `SetContext(name, uint64_t value, piiKind)` (line 166). -/
def LogManagerImpl.SetContext_uint64_t {PiiKind Result : Type}
    (SetContext_int64_t : String → Int → PiiKind → Result)
    (name : String) (value : uint64_t) (piiKind : PiiKind) : Result :=
  SetContext_int64_t name (to_int64_t (value.val : Int)) piiKind

/-- An `int64_t` overload that only reports the three arguments it was
called with, to read off what a forwarding overload passes on. -/
def recordSetContext (name : String) (value : Int) (piiKind : Unit) : String × Int × Unit :=
  (name, value, piiKind)

/-- The embedding evaluated on small inputs: a constructor with bounds 1 and
3 enables level 2 and not level 4; with the set `{7, 9}` installed on it,
level 9 is enabled and level 2 no longer is. -/
theorem DiagLevelFilter.isLevelEnabled_samples :
    (DiagLevelFilter.ctor ⟨2, 1, 3⟩).IsLevelEnabled 2 = true ∧
    (DiagLevelFilter.ctor ⟨2, 1, 3⟩).IsLevelEnabled 4 = false ∧
    ((DiagLevelFilter.ctor ⟨2, 1, 3⟩).SetFilter_set 0 {7, 9}).IsLevelEnabled 9 = true ∧
    ((DiagLevelFilter.ctor ⟨2, 1, 3⟩).SetFilter_set 0 {7, 9}).IsLevelEnabled 2 = false ∧
    (DiagLevelFilter.ctor ⟨2, 1, 3⟩).IsLevelFilterEnabled ⟨2, 1, 3⟩ = false ∧
    ((DiagLevelFilter.ctor ⟨2, 1, 3⟩).SetFilter_range 2 1 4).IsLevelFilterEnabled ⟨2, 1, 3⟩ =
      true := by
  decide

/-- C1: `IsLevelEnabled(level)` is true exactly when either the set is
non-empty and holds `level`, or the set is empty, `levelMin <= levelMax` and
`levelMin <= level <= levelMax`. -/
theorem DiagLevelFilter.isLevelEnabled_iff (f : DiagLevelFilter) (level : uint8_t) :
    f.IsLevelEnabled level = true ↔
      (f.m_levelSet.Nonempty ∧ level ∈ f.m_levelSet) ∨
      (f.m_levelSet = ∅ ∧ f.m_levelMin ≤ f.m_levelMax ∧
        f.m_levelMin ≤ level ∧ level ≤ f.m_levelMax) := by
  unfold DiagLevelFilter.IsLevelEnabled
  by_cases h : f.m_levelSet = ∅
  · simp [h, and_assoc]
  · have hne : f.m_levelSet.Nonempty := Finset.nonempty_iff_ne_empty.mpr h
    simp [h, hne]

/-- C2: `IsLevelFilterEnabled()` is false exactly when the set is empty and
`levelMin`, `levelMax` and the default level equal their three default
constants, which is exactly the state the constructor builds. -/
theorem DiagLevelFilter.isLevelFilterEnabled_false_iff (c : DiagLevelConstants)
    (f : DiagLevelFilter) :
    (f.IsLevelFilterEnabled c = false ↔
      (f.m_levelSet = ∅ ∧ f.m_levelMin = c.DIAG_LEVEL_DEFAULT_MIN ∧
        f.m_levelMax = c.DIAG_LEVEL_DEFAULT_MAX ∧ f.m_level = c.DIAG_LEVEL_DEFAULT)) ∧
    (f.IsLevelFilterEnabled c = false ↔ f = DiagLevelFilter.ctor c) := by
  have key : f.IsLevelFilterEnabled c = false ↔
      (f.m_levelSet = ∅ ∧ f.m_levelMin = c.DIAG_LEVEL_DEFAULT_MIN ∧
        f.m_levelMax = c.DIAG_LEVEL_DEFAULT_MAX ∧ f.m_level = c.DIAG_LEVEL_DEFAULT) := by
    unfold DiagLevelFilter.IsLevelFilterEnabled
    simp [and_assoc]
  refine ⟨key, key.trans ?_⟩
  cases f with
  | mk mn mx d s =>
    simp only [DiagLevelFilter.ctor, DiagLevelFilter.mk.injEq]
    tauto

/-- The range overload of `SetFilter` on a state whose set is non-empty: the
set still decides, the new bounds are not consulted. -/
theorem DiagLevelFilter.isLevelEnabled_setFilter_range_of_nonempty (f : DiagLevelFilter)
    (defaultLevel levelMin levelMax level : uint8_t) (h : f.m_levelSet ≠ ∅) :
    (f.SetFilter_range defaultLevel levelMin levelMax).IsLevelEnabled level = true ↔
      level ∈ f.m_levelSet := by
  simp [DiagLevelFilter.IsLevelEnabled, DiagLevelFilter.SetFilter_range, h]

/-- A sequence of range calls never writes the set. -/
theorem DiagLevelFilter.rangeCalls_levelSet (rs : List (uint8_t × uint8_t × uint8_t)) :
    ∀ f : DiagLevelFilter, (f.rangeCalls rs).m_levelSet = f.m_levelSet := by
  induction rs with
  | nil => intro f; rfl
  | cons r rs ih =>
    intro f
    simp only [DiagLevelFilter.rangeCalls, List.foldl_cons] at ih ⊢
    rw [ih]
    rfl

/-- In set mode the result of `IsLevelEnabled` is read off the set alone. -/
theorem DiagLevelFilter.isLevelEnabled_of_nonempty (f : DiagLevelFilter) (level : uint8_t)
    (h : f.m_levelSet ≠ ∅) : f.IsLevelEnabled level = decide (level ∈ f.m_levelSet) := by
  simp [DiagLevelFilter.IsLevelEnabled, h]

/-- Whatever the constants are, the default-constructed filter enables every
level 0..255 exactly when the default bounds are 0 and 255. -/
theorem DiagLevelFilter.ctor_acceptAll_iff (c : DiagLevelConstants) :
    (∀ level : uint8_t, (DiagLevelFilter.ctor c).IsLevelEnabled level = true) ↔
      c.DIAG_LEVEL_DEFAULT_MIN = 0 ∧ c.DIAG_LEVEL_DEFAULT_MAX = 255 := by
  constructor
  · intro h
    have h0 := h 0
    have h255 := h 255
    simp only [DiagLevelFilter.IsLevelEnabled, DiagLevelFilter.ctor, decide_True, Bool.not_true,
      Bool.false_eq_true, if_false, Bool.and_eq_true, decide_eq_true_eq] at h0 h255
    refine ⟨le_antisymm h0.1.2 (Fin.zero_le _), Fin.ext ?_⟩
    · have h1 : (255 : Fin 256).val ≤ c.DIAG_LEVEL_DEFAULT_MAX.val := h255.2
      have h2 := c.DIAG_LEVEL_DEFAULT_MAX.isLt
      have h3 : (255 : Fin 256).val = 255 := rfl
      omega
  · rintro ⟨hmin, hmax⟩ level
    have hl : level.val ≤ 255 := Nat.lt_succ_iff.mp level.isLt
    simp only [DiagLevelFilter.IsLevelEnabled, DiagLevelFilter.ctor, hmin, hmax, decide_True,
      Bool.not_true, Bool.false_eq_true, if_false, Bool.and_eq_true, decide_eq_true_eq]
    refine ⟨⟨?_, ?_⟩, ?_⟩
    · exact Fin.zero_le _
    · exact Fin.zero_le _
    · exact Fin.le_def.mpr hl

/-- C3, as the claim states it, fails: on a prior state whose set is `{5}`,
after `SetFilter(0, 1, 3)` level 2 lies within the new bounds and is not
enabled, and level 5 lies outside them and is enabled. -/
theorem DiagLevelFilter.setFilter_range_not_bounds :
    ¬ ((stateWithSet.SetFilter_range 0 1 3).IsLevelEnabled 2 = true ↔
        ((1 : uint8_t) ≤ 2 ∧ (2 : uint8_t) ≤ 3)) ∧
    ¬ ((stateWithSet.SetFilter_range 0 1 3).IsLevelEnabled 5 = true ↔
        ((1 : uint8_t) ≤ 5 ∧ (5 : uint8_t) ≤ 3)) := by
  decide

/-- C3, amended: on a prior state whose set is empty, after
`SetFilter(defaultLevel, levelMin, levelMax)` a level is enabled exactly when
`levelMin <= level <= levelMax`. -/
theorem DiagLevelFilter.isLevelEnabled_setFilter_range (f : DiagLevelFilter)
    (defaultLevel levelMin levelMax level : uint8_t) (h : f.m_levelSet = ∅) :
    (f.SetFilter_range defaultLevel levelMin levelMax).IsLevelEnabled level = true ↔
      levelMin ≤ level ∧ level ≤ levelMax := by
  simp only [DiagLevelFilter.IsLevelEnabled, DiagLevelFilter.SetFilter_range, h, decide_True,
    Bool.not_true, Bool.false_eq_true, if_false, Bool.and_eq_true, decide_eq_true_eq]
  constructor
  · rintro ⟨⟨_, h1⟩, h2⟩
    exact ⟨h1, h2⟩
  · rintro ⟨h1, h2⟩
    exact ⟨⟨le_trans h1 h2, h1⟩, h2⟩

/-- The amended C3 at a concrete input: from the range-mode state with bounds
10 and 20, after `SetFilter(0, 1, 3)` level 2 is enabled. -/
theorem DiagLevelFilter.isLevelEnabled_setFilter_range_witness :
    stateWithRange.m_levelSet = ∅ ∧
    ((stateWithRange.SetFilter_range 0 1 3).IsLevelEnabled 2 = true ↔
      ((1 : uint8_t) ≤ 2 ∧ (2 : uint8_t) ≤ 3)) :=
  ⟨rfl, DiagLevelFilter.isLevelEnabled_setFilter_range stateWithRange 0 1 3 2 rfl⟩

/-- C4: after `SetFilter(defaultLevel, allowedLevels)` with a non-empty set,
whatever the prior state and its bounds, a level is enabled exactly when it
is a member of `allowedLevels`. -/
theorem DiagLevelFilter.isLevelEnabled_setFilter_set (f : DiagLevelFilter)
    (defaultLevel : uint8_t) (allowedLevels : Finset uint8_t) (level : uint8_t)
    (h : allowedLevels.Nonempty) :
    (f.SetFilter_set defaultLevel allowedLevels).IsLevelEnabled level = true ↔
      level ∈ allowedLevels := by
  have hne : allowedLevels ≠ ∅ := Finset.nonempty_iff_ne_empty.mp h
  simp [DiagLevelFilter.IsLevelEnabled, DiagLevelFilter.SetFilter_set, hne]

/-- C4 at a concrete input: from the range-mode state with bounds 10 and 20,
after `SetFilter(0, {7, 9})` level 9 is enabled because it is in the set. -/
theorem DiagLevelFilter.isLevelEnabled_setFilter_set_witness :
    ({7, 9} : Finset uint8_t).Nonempty ∧
    ((stateWithRange.SetFilter_set 0 {7, 9}).IsLevelEnabled 9 = true ↔
      (9 : uint8_t) ∈ ({7, 9} : Finset uint8_t)) :=
  ⟨⟨7, by decide⟩,
    DiagLevelFilter.isLevelEnabled_setFilter_set stateWithRange 0 {7, 9} 9 ⟨7, by decide⟩⟩

/-- C5: after `SetFilter(defaultLevel, {})` with the empty set, whatever set
the prior state held, a level is enabled exactly when the stored bounds
satisfy `levelMin <= levelMax` and `levelMin <= level <= levelMax`. -/
theorem DiagLevelFilter.isLevelEnabled_setFilter_set_empty (f : DiagLevelFilter)
    (defaultLevel level : uint8_t) :
    (f.SetFilter_set defaultLevel ∅).IsLevelEnabled level = true ↔
      f.m_levelMin ≤ f.m_levelMax ∧ f.m_levelMin ≤ level ∧ level ≤ f.m_levelMax := by
  simp [DiagLevelFilter.IsLevelEnabled, DiagLevelFilter.SetFilter_set, and_assoc]

/-- C6, as the claim states it, fails for both overloads: from the two prior
states `stateWithSet` and `stateWithRange` the same range call gives two
different states (the sets differ), and the same set call gives two different
states (the bounds differ). -/
theorem DiagLevelFilter.setFilter_not_wholesale :
    stateWithSet.SetFilter_range 0 1 3 ≠ stateWithRange.SetFilter_range 0 1 3 ∧
    stateWithSet.SetFilter_set 0 {7} ≠ stateWithRange.SetFilter_set 0 {7} := by
  decide

/-- C6, amended: the state after the range overload is determined by its
arguments and the prior set, and the state after the set overload by its
arguments and the prior bounds; two prior states give the same state after
the same call exactly when they agree on that part. -/
theorem DiagLevelFilter.setFilter_determined (s1 s2 : DiagLevelFilter)
    (defaultLevel levelMin levelMax : uint8_t) (allowedLevels : Finset uint8_t) :
    (s1.SetFilter_range defaultLevel levelMin levelMax =
        s2.SetFilter_range defaultLevel levelMin levelMax ↔
      s1.m_levelSet = s2.m_levelSet) ∧
    (s1.SetFilter_set defaultLevel allowedLevels =
        s2.SetFilter_set defaultLevel allowedLevels ↔
      (s1.m_levelMin = s2.m_levelMin ∧ s1.m_levelMax = s2.m_levelMax)) := by
  simp [DiagLevelFilter.SetFilter_range, DiagLevelFilter.SetFilter_set]

/-- C7: with the default bounds 0 and 255 of an accept-all filter, the
default-constructed filter enables every level 0..255, whatever the default
level is. -/
theorem DiagLevelFilter.ctor_acceptAll (defaultLevel level : uint8_t) :
    (DiagLevelFilter.ctor (acceptAllConstants defaultLevel)).IsLevelEnabled level = true :=
  (DiagLevelFilter.ctor_acceptAll_iff (acceptAllConstants defaultLevel)).mpr ⟨rfl, rfl⟩ level

/-- After either overload the default level is the `defaultLevel` argument. -/
theorem DiagLevelFilter.getDefaultLevel_call (f : DiagLevelFilter) (c : SetFilterCall) :
    (f.call c).GetDefaultLevel = c.defaultLevel := by
  cases c <;> rfl

/-- A sequence of calls followed by one more call. -/
theorem DiagLevelFilter.calls_concat (f : DiagLevelFilter) (cs : List SetFilterCall)
    (c : SetFilterCall) : f.calls (cs ++ [c]) = (f.calls cs).call c := by
  simp [DiagLevelFilter.calls, List.foldl_append]

/-- C8: `GetDefaultLevel()` of a default-constructed filter is
`DIAG_LEVEL_DEFAULT`; after a sequence of `SetFilter` calls of either overload
on it, it is the `defaultLevel` argument of the last call if there was one and
`DIAG_LEVEL_DEFAULT` otherwise; and from any state, after a sequence of calls
ending in a given call it is that call's `defaultLevel`. -/
theorem DiagLevelFilter.getDefaultLevel_calls (c : DiagLevelConstants)
    (cs : List SetFilterCall) :
    (DiagLevelFilter.ctor c).GetDefaultLevel = c.DIAG_LEVEL_DEFAULT ∧
    ((DiagLevelFilter.ctor c).calls cs).GetDefaultLevel =
      (match cs.getLast? with
        | none => c.DIAG_LEVEL_DEFAULT
        | some last => last.defaultLevel) ∧
    (∀ (f : DiagLevelFilter) (last : SetFilterCall),
      (f.calls (cs ++ [last])).GetDefaultLevel = last.defaultLevel) := by
  refine ⟨rfl, ?_, ?_⟩
  · rcases List.eq_nil_or_concat cs with h | ⟨init, last, h⟩
    · subst h
      rfl
    · subst h
      rw [List.concat_eq_append, DiagLevelFilter.calls_concat,
        DiagLevelFilter.getDefaultLevel_call]
      simp
  · intro f last
    rw [DiagLevelFilter.calls_concat, DiagLevelFilter.getDefaultLevel_call]

/-- C9: the result of `IsLevelEnabled` is determined by the filter state and
the level, and within the state by what the body reads, `levelMin`, `levelMax`
and `levelSet`: two runs on states that agree on these three members, at the
same level, return the same result, whether or not their default levels
agree. States equal in all four members are the case where they do. -/
theorem DiagLevelFilter.isLevelEnabled_determined (f1 f2 : DiagLevelFilter)
    (level1 level2 : uint8_t) (hMin : f1.m_levelMin = f2.m_levelMin)
    (hMax : f1.m_levelMax = f2.m_levelMax) (hSet : f1.m_levelSet = f2.m_levelSet)
    (hArg : level1 = level2) :
    f1.IsLevelEnabled level1 = f2.IsLevelEnabled level2 := by
  unfold DiagLevelFilter.IsLevelEnabled
  rw [hMin, hMax, hSet, hArg]

/-- C9 at a concrete input: two different states, with default levels 7 and
0 and the same bounds 10 and 20 and set `{5}`, answer the same at level 5 and
at level 15, enabled at 5 and not at 15. -/
theorem DiagLevelFilter.isLevelEnabled_determined_witness :
    stateWithRange.SetFilter_set 7 {5} ≠ DiagLevelFilter.mk 10 20 0 {5} ∧
    ((stateWithRange.SetFilter_set 7 {5}).IsLevelEnabled 5 =
      (DiagLevelFilter.mk 10 20 0 {5}).IsLevelEnabled 5) ∧
    ((stateWithRange.SetFilter_set 7 {5}).IsLevelEnabled 15 =
      (DiagLevelFilter.mk 10 20 0 {5}).IsLevelEnabled 15) ∧
    (DiagLevelFilter.mk 10 20 0 {5}).IsLevelEnabled 5 = true ∧
    (DiagLevelFilter.mk 10 20 0 {5}).IsLevelEnabled 15 = false :=
  ⟨by decide,
    DiagLevelFilter.isLevelEnabled_determined (stateWithRange.SetFilter_set 7 {5})
      (DiagLevelFilter.mk 10 20 0 {5}) 5 5 rfl rfl rfl rfl,
    DiagLevelFilter.isLevelEnabled_determined (stateWithRange.SetFilter_set 7 {5})
      (DiagLevelFilter.mk 10 20 0 {5}) 15 15 rfl rfl rfl rfl,
    by decide, by decide⟩

/-- C10: the range overload leaves `levelSet` as it was, the set overload
leaves `levelMin` and `levelMax` as they were, and once a non-empty set is
installed, after any sequence of range calls `IsLevelEnabled` returns for
every level what it returned before them. -/
theorem DiagLevelFilter.setFilter_frame (f : DiagLevelFilter)
    (defaultLevel levelMin levelMax : uint8_t) (allowedLevels : Finset uint8_t)
    (rs : List (uint8_t × uint8_t × uint8_t)) (level : uint8_t) :
    (f.SetFilter_range defaultLevel levelMin levelMax).m_levelSet = f.m_levelSet ∧
    ((f.SetFilter_set defaultLevel allowedLevels).m_levelMin = f.m_levelMin ∧
      (f.SetFilter_set defaultLevel allowedLevels).m_levelMax = f.m_levelMax) ∧
    (allowedLevels.Nonempty →
      ((f.SetFilter_set defaultLevel allowedLevels).rangeCalls rs).IsLevelEnabled level =
        (f.SetFilter_set defaultLevel allowedLevels).IsLevelEnabled level) := by
  refine ⟨rfl, ⟨rfl, rfl⟩, ?_⟩
  intro h
  have hne : (f.SetFilter_set defaultLevel allowedLevels).m_levelSet ≠ ∅ :=
    Finset.nonempty_iff_ne_empty.mp h
  have hset := DiagLevelFilter.rangeCalls_levelSet rs (f.SetFilter_set defaultLevel allowedLevels)
  rw [DiagLevelFilter.isLevelEnabled_of_nonempty _ _ hne,
    DiagLevelFilter.isLevelEnabled_of_nonempty _ _ (hset ▸ hne), hset]

/-- C10 at a concrete input: the set `{5}` is installed on the range-mode
state, then the range overload is called twice, the second time with bounds
100 and 200; level 5 is enabled before and after, and level 150 is not. -/
theorem DiagLevelFilter.setFilter_frame_witness :
    ({5} : Finset uint8_t).Nonempty ∧
    (((stateWithRange.SetFilter_set 0 {5}).rangeCalls [(0, 1, 3), (1, 100, 200)]).IsLevelEnabled
        150 = (stateWithRange.SetFilter_set 0 {5}).IsLevelEnabled 150) ∧
    ((stateWithRange.SetFilter_set 0 {5}).rangeCalls [(0, 1, 3), (1, 100, 200)]).IsLevelEnabled
        150 = false :=
  ⟨⟨5, by decide⟩,
    (DiagLevelFilter.setFilter_frame stateWithRange 0 0 0 {5} [(0, 1, 3), (1, 100, 200)] 150).2.2
      ⟨5, by decide⟩,
    by decide⟩

/-- The conversion to `int64_t` keeps every value of -2^63..2^63-1. -/
theorem to_int64_t_of_inRange (v : Int) (hlo : -9223372036854775808 ≤ v)
    (hhi : v < 9223372036854775808) : to_int64_t v = v := by
  unfold to_int64_t
  omega

/-- The conversion to `int64_t` takes a value of 2^63..2^64-1 to that value
minus 2^64. -/
theorem to_int64_t_of_ge (v : Int) (hlo : 9223372036854775808 ≤ v)
    (hhi : v < 18446744073709551616) : to_int64_t v = v - 18446744073709551616 := by
  unfold to_int64_t
  omega

/-- The result of the conversion is always a value of `int64_t`. -/
theorem to_int64_t_range (v : Int) :
    -9223372036854775808 ≤ to_int64_t v ∧ to_int64_t v < 9223372036854775808 := by
  unfold to_int64_t
  omega

/-- The conversion evaluated on small inputs: 200 of `uint8_t` and -128 of
`int8_t` are kept, 2^63 of `uint64_t` becomes -2^63 and 2^64-1 becomes -1. -/
theorem to_int64_t_samples :
    to_int64_t 200 = 200 ∧ to_int64_t (-128) = -128 ∧
    to_int64_t 9223372036854775807 = 9223372036854775807 ∧
    to_int64_t 9223372036854775808 = -9223372036854775808 ∧
    to_int64_t 18446744073709551615 = -1 := by
  decide

/-- C11: each narrow-integer `SetContext` overload calls the `int64_t`
overload with the same name and piiKind and the value converted to `int64_t`.
For `int8_t`, `int16_t`, `int32_t`, `uint8_t`, `uint16_t` and `uint32_t` the
value passed on is the argument, for every input. For `uint64_t` it is the
argument when that is below 2^63 and the argument minus 2^64 otherwise; the
conversion returns the argument only below 2^63, and from 2^63 on the value
passed on is negative. -/
theorem LogManagerImpl.setContext_forwards {PiiKind Result : Type}
    (SetContext_int64_t : String → Int → PiiKind → Result) (name : String) (piiKind : PiiKind) :
    (∀ value : int8_t, LogManagerImpl.SetContext_int8_t SetContext_int64_t name value piiKind =
      SetContext_int64_t name value.val piiKind) ∧
    (∀ value : int16_t, LogManagerImpl.SetContext_int16_t SetContext_int64_t name value piiKind =
      SetContext_int64_t name value.val piiKind) ∧
    (∀ value : int32_t, LogManagerImpl.SetContext_int32_t SetContext_int64_t name value piiKind =
      SetContext_int64_t name value.val piiKind) ∧
    (∀ value : uint8_t, LogManagerImpl.SetContext_uint8_t SetContext_int64_t name value piiKind =
      SetContext_int64_t name (value.val : Int) piiKind) ∧
    (∀ value : uint16_t, LogManagerImpl.SetContext_uint16_t SetContext_int64_t name value piiKind =
      SetContext_int64_t name (value.val : Int) piiKind) ∧
    (∀ value : uint32_t, LogManagerImpl.SetContext_uint32_t SetContext_int64_t name value piiKind =
      SetContext_int64_t name (value.val : Int) piiKind) ∧
    (∀ value : uint64_t, LogManagerImpl.SetContext_uint64_t SetContext_int64_t name value piiKind =
      SetContext_int64_t name
        (if value.val < 9223372036854775808 then (value.val : Int)
          else (value.val : Int) - 18446744073709551616) piiKind) ∧
    (∀ value : uint64_t,
      (to_int64_t (value.val : Int) = (value.val : Int) ↔ value.val < 9223372036854775808) ∧
      (9223372036854775808 ≤ value.val → to_int64_t (value.val : Int) < 0)) := by
  refine ⟨?_, ?_, ?_, ?_, ?_, ?_, ?_, ?_⟩
  · intro value
    have h := value.property
    unfold LogManagerImpl.SetContext_int8_t
    rw [to_int64_t_of_inRange _ (by omega) (by omega)]
  · intro value
    have h := value.property
    unfold LogManagerImpl.SetContext_int16_t
    rw [to_int64_t_of_inRange _ (by omega) (by omega)]
  · intro value
    have h := value.property
    unfold LogManagerImpl.SetContext_int32_t
    rw [to_int64_t_of_inRange _ (by omega) (by omega)]
  · intro value
    have h := value.isLt
    unfold LogManagerImpl.SetContext_uint8_t
    rw [to_int64_t_of_inRange _ (by omega) (by omega)]
  · intro value
    have h := value.isLt
    unfold LogManagerImpl.SetContext_uint16_t
    rw [to_int64_t_of_inRange _ (by omega) (by omega)]
  · intro value
    have h := value.isLt
    unfold LogManagerImpl.SetContext_uint32_t
    rw [to_int64_t_of_inRange _ (by omega) (by omega)]
  · intro value
    have h := value.isLt
    unfold LogManagerImpl.SetContext_uint64_t
    by_cases hlt : value.val < 9223372036854775808
    · rw [if_pos hlt, to_int64_t_of_inRange _ (by omega) (by omega)]
    · rw [if_neg hlt, to_int64_t_of_ge _ (by omega) (by omega)]
  · intro value
    have h := value.isLt
    by_cases hlt : value.val < 9223372036854775808
    · have hk := to_int64_t_of_inRange (value.val : Int) (by omega) (by omega)
      exact ⟨⟨fun _ => hlt, fun _ => hk⟩, fun hge => absurd hlt (Nat.not_lt.mpr hge)⟩
    · have hk := to_int64_t_of_ge (value.val : Int) (by omega) (by omega)
      refine ⟨⟨fun heq => ?_, fun hlt2 => absurd hlt2 hlt⟩, fun _ => ?_⟩
      · omega
      · omega

/-- C11 at concrete inputs, with an `int64_t` overload that reports its
arguments: the `uint64_t` argument 2^64-1 is at least 2^63, is converted to a
negative number, and is passed on as -1 under the same name and piiKind. -/
theorem LogManagerImpl.setContext_forwards_witness :
    9223372036854775808 ≤ (18446744073709551615 : uint64_t).val ∧
    to_int64_t ((18446744073709551615 : uint64_t).val : Int) < 0 ∧
    LogManagerImpl.SetContext_uint64_t recordSetContext "key" 18446744073709551615 () =
      ("key", -1, ()) :=
  ⟨by decide,
    ((LogManagerImpl.setContext_forwards recordSetContext "key" ()).2.2.2.2.2.2.2
      18446744073709551615).2 (by decide),
    ((LogManagerImpl.setContext_forwards recordSetContext "key" ()).2.2.2.2.2.2.1
      18446744073709551615).trans (by decide)⟩
